import Mathlib

/-
Shallow embedding of the siksha-path session and access-control core:
the AuthService (register, login, refreshToken, logout, changePassword,
forgotPassword, resetPassword, validateUserById, isTokenBlacklisted),
the JwtStrategy validate step, and the ResourceGuard (canActivate with
its policy loop and resource-id extraction), together with theorems about
their behaviour.

Modelling conventions:
- time is a Nat of seconds (the code uses Math.floor(Date.now() / 1000)
  for the blacklist timestamp and second-granularity JWT iat/exp claims);
- bcrypt is modelled as an injective tag of the plaintext: the code only
  relies on the law that compare(p, hash(p)) verifies and nothing else;
- a JWT is its claims bundle plus iat, exp and a signature-validity flag;
  jwtService.verifyAsync succeeds exactly when the signature is valid and
  the token is unexpired;
- the cache (cache-manager) is an association list from keys to values.
  The string keys refresh_token:<id>, blacklist:<id>, reset_token:<id>
  are modelled as a structured key type: the three prefixed renderings
  can never collide, so the structured type is isomorphic to the key
  strings actually used;
- each service method becomes a pure function from a state (users table
  plus cache) to a result-or-error paired with the successor state; in the
  source every throw happens before any write of the same method, so an
  error result is always paired with the unchanged input state.
-/

namespace SikshaPath

/-- User roles from the UserRole enum in the auth dto: student, teacher, admin. -/
inductive UserRole
  | student
  | teacher
  | admin
deriving DecidableEq, Repr

/-- Kinds of NestJS HTTP exceptions thrown by the auth service and the guard. -/
inductive ErrKind
  | Unauthorized
  | Forbidden
  | Conflict
  | NotFound
  | BadRequest
deriving DecidableEq, Repr

/-- A thrown HTTP exception: its kind and its message string. -/
structure AuthError where
  kind : ErrKind
  message : String
deriving DecidableEq, Repr

/-- A row of the users table, restricted to the fields the auth core reads
and writes (id, email, password hash, first and last name, role, phone,
isVerified and isActive; the last two are string-valued in the schema). -/
structure User where
  id : String
  email : String
  password : String
  firstName : String
  lastName : String
  role : UserRole
  phone : Option String
  isVerified : String
  isActive : String
deriving DecidableEq, Repr

/-- Model of bcrypt.hash at the fixed cost parameter used by the service:
an injective tagging of the plaintext. -/
def bcryptHash (pw : String) : String := "bcrypt$" ++ pw

/-- Model of bcrypt.compare: the hash verifies against exactly the
plaintext it was produced from. -/
def bcryptCompare (pw h : String) : Bool := h == bcryptHash pw

/-- The JWT claims payload minted by the service: sub, email, role and
fullName for access and refresh tokens; sub, email and a type tag for
reset tokens (absent claims are none). -/
structure JwtPayload where
  sub : String
  email : String
  role : Option UserRole
  fullName : Option String
  typ : Option String
deriving DecidableEq, Repr

/-- A signed compact token: payload claims plus issued-at, expiry and a
flag recording whether it carries a valid signature under the process
secret. -/
structure Jwt where
  payload : JwtPayload
  iat : Nat
  exp : Nat
  sigOk : Bool
deriving DecidableEq, Repr

/-- jwtService.signAsync at time now with the given lifetime in seconds. -/
def signToken (now : Nat) (p : JwtPayload) (lifetime : Nat) : Jwt :=
  ⟨p, now, now + lifetime, true⟩

/-- jwtService.verifyAsync at time now: returns the decoded token when the
signature is valid and the token is unexpired, and fails otherwise. -/
def verifyToken (now : Nat) (t : Jwt) : Option Jwt :=
  if t.sigOk && decide (now < t.exp) then some t else none

/-- Cache keys used by the auth service. The source uses the string keys
refresh_token:<id>, blacklist:<id> and reset_token:<id>; the three
prefixed forms never collide, so a structured key is a faithful model. -/
inductive CacheKey
  | refreshTok (id : String)
  | blacklist (id : String)
  | resetTok (id : String)
deriving DecidableEq, Repr

/-- Values stored in the cache: a token (refresh or reset slots) or a
numeric timestamp (blacklist slot). -/
inductive CacheVal
  | tok (t : Jwt)
  | ts (n : Nat)
deriving DecidableEq, Repr

/-- The cache-manager store as an association list. -/
abbrev Cache := List (CacheKey × CacheVal)

/-- cacheManager.get: the value at the key, if present. -/
def cacheGet (c : Cache) (k : CacheKey) : Option CacheVal :=
  (c.find? (fun e => e.1 == k)).map (fun e => e.2)

/-- cacheManager.set: overwrite the value at the key. -/
def cacheSet (c : Cache) (k : CacheKey) (v : CacheVal) : Cache :=
  (k, v) :: c.filter (fun e => e.1 != k)

/-- cacheManager.del: remove the key. -/
def cacheDel (c : Cache) (k : CacheKey) : Cache :=
  c.filter (fun e => e.1 != k)

theorem find?_filter_ne_key (c : Cache) (k k' : CacheKey) (h : k' ≠ k) :
    (c.filter (fun e => e.1 != k)).find? (fun e => e.1 == k') =
      c.find? (fun e => e.1 == k') := by
  induction c with
  | nil => rfl
  | cons a tl ih =>
      by_cases ha : a.1 = k
      · have h1 : (a.1 != k) = false := by simp [ha]
        have h2 : (a.1 == k') = false := by simp [ha, Ne.symm h]
        rw [List.filter_cons_of_neg (by simp [h1]),
            List.find?_cons_of_neg _ (by simp [h2]), ih]
      · have h1 : (a.1 != k) = true := by simp [ha]
        by_cases ha' : a.1 = k'
        · rw [List.filter_cons_of_pos (by simp [h1]),
              List.find?_cons_of_pos _ (by simp [ha']),
              List.find?_cons_of_pos _ (by simp [ha'])]
        · rw [List.filter_cons_of_pos (by simp [h1]),
              List.find?_cons_of_neg _ (by simp [ha']),
              List.find?_cons_of_neg _ (by simp [ha']), ih]

theorem cacheGet_set_self (c : Cache) (k : CacheKey) (v : CacheVal) :
    cacheGet (cacheSet c k v) k = some v := by
  simp [cacheGet, cacheSet, List.find?]

theorem cacheGet_set_ne (c : Cache) (k k' : CacheKey) (v : CacheVal)
    (h : k' ≠ k) : cacheGet (cacheSet c k v) k' = cacheGet c k' := by
  unfold cacheGet cacheSet
  rw [List.find?_cons_of_neg _ (by simp [Ne.symm h]), find?_filter_ne_key c k k' h]

theorem cacheGet_del_self (c : Cache) (k : CacheKey) :
    cacheGet (cacheDel c k) k = none := by
  unfold cacheGet cacheDel
  have hnone : (c.filter (fun e => e.1 != k)).find? (fun e => e.1 == k) = none := by
    apply List.find?_eq_none.mpr
    intro x hx
    have hmem := (List.mem_filter.mp hx).2
    simp only [bne_iff_ne, ne_eq] at hmem
    simp [hmem]
  rw [hnone]
  rfl

theorem cacheGet_del_ne (c : Cache) (k k' : CacheKey) (h : k' ≠ k) :
    cacheGet (cacheDel c k) k' = cacheGet c k' := by
  unfold cacheGet cacheDel
  rw [find?_filter_ne_key c k k' h]

/-- A row of the courses table, restricted to the fields the resource
guard reads: the course id and the owning teacher id. -/
structure Course where
  id : String
  teacherId : String
deriving DecidableEq, Repr

/-- A row of the enrollments table, restricted to the fields the resource
guard reads: student id, course id and enrollment status. -/
structure Enrollment where
  studentId : String
  courseId : String
  status : String
deriving DecidableEq, Repr

/-- The relational data the resource guard queries. -/
structure GuardDb where
  courses : List Course
  enrollments : List Enrollment
deriving DecidableEq, Repr

/-- The ResourceAction enum of the resource guard: own, enrolled, admin,
public. -/
inductive ResourceAction
  | OWN
  | ENROLLED
  | ADMIN
  | PUBLIC
deriving DecidableEq, Repr

/-- Rendering of a ResourceAction used in the denial message, matching the
enum string values in the source. -/
def actionName : ResourceAction → String
  | .OWN => "own"
  | .ENROLLED => "enrolled"
  | .ADMIN => "admin"
  | .PUBLIC => "public"

/-- The authenticated principal attached to the request by the JWT
strategy, restricted to the fields the guard reads. -/
structure AuthedUser where
  id : String
  role : UserRole
deriving DecidableEq, Repr

/-- The request fields the resource-id extraction inspects, in the order
the source tries them: params.id, params.courseId, body.courseId,
query.courseId. -/
structure GuardRequest where
  paramsId : Option String
  paramsCourseId : Option String
  bodyCourseId : Option String
  queryCourseId : Option String
deriving DecidableEq, Repr

/-- JavaScript truthiness of an optional string field: present and
nonempty. -/
def truthyStr : Option String → Bool
  | none => false
  | some s => s != ""

/-- ResourceGuard.extractResourceId: the first truthy candidate among
params.id, params.courseId, body.courseId, query.courseId. -/
def extractResourceId (req : GuardRequest) : Option String :=
  if truthyStr req.paramsId then req.paramsId
  else if truthyStr req.paramsCourseId then req.paramsCourseId
  else if truthyStr req.bodyCourseId then req.bodyCourseId
  else if truthyStr req.queryCourseId then req.queryCourseId
  else none

/-- ResourceGuard.checkResourceExists: some course row has the given id. -/
def checkResourceExists (db : GuardDb) (resourceId : String) : Bool :=
  db.courses.any (fun c => c.id == resourceId)

/-- ResourceGuard.checkOwnership: some course row has the given id and the
caller as its teacher. -/
def checkOwnership (db : GuardDb) (resourceId userId : String) : Bool :=
  db.courses.any (fun c => c.id == resourceId && c.teacherId == userId)

/-- ResourceGuard.checkEnrollment: some enrollment row links the caller to
the course with status active. -/
def checkEnrollment (db : GuardDb) (resourceId userId : String) : Bool :=
  db.enrollments.any (fun e =>
    e.courseId == resourceId && e.studentId == userId && e.status == "active")

/-- The for-loop over requiredActions in ResourceGuard.canActivate, in the
declared list order: OWN grants on ownership, ENROLLED on active
enrollment, PUBLIC unconditionally, ADMIN is skipped (it was handled
before the loop); the loop falls through to a denial when no case grants. -/
def policyLoop (db : GuardDb) (resourceId userId : String) :
    List ResourceAction → Bool
  | [] => false
  | .OWN :: rest =>
      if checkOwnership db resourceId userId then true
      else policyLoop db resourceId userId rest
  | .ENROLLED :: rest =>
      if checkEnrollment db resourceId userId then true
      else policyLoop db resourceId userId rest
  | .PUBLIC :: _ => true
  | .ADMIN :: rest => policyLoop db resourceId userId rest

/-- ResourceGuard.canActivate: the isPublic metadata allows immediately;
absent or empty resourceActions metadata allows; then the guard requires a
user, an extractable resource id and an existing resource, applies the
admin override, and finally runs the policy loop; a fall-through denies
naming the required permissions. -/
def canActivate (db : GuardDb) (isPublicMeta : Bool)
    (requiredActions : Option (List ResourceAction))
    (user : Option AuthedUser) (req : GuardRequest) : Except AuthError Bool :=
  if isPublicMeta then .ok true
  else
    match requiredActions with
    | none => .ok true
    | some acts =>
      if acts.isEmpty then .ok true
      else
        match user with
        | none => .error ⟨.Forbidden, "Authentication required"⟩
        | some u =>
          match extractResourceId req with
          | none => .error ⟨.NotFound, "Resource ID not found"⟩
          | some resourceId =>
            if !(checkResourceExists db resourceId) then
              .error ⟨.NotFound, "Resource not found"⟩
            else if u.role == UserRole.admin && acts.contains .ADMIN then
              .ok true
            else if policyLoop db resourceId u.id acts then
              .ok true
            else
              .error ⟨.Forbidden, "Access denied. Required permissions: " ++
                String.intercalate ", " (acts.map actionName)⟩

/-- The action at which the canActivate policy loop grants, following the
same list order as the loop in the source; none when the loop falls
through to the denial. -/
def grantingAction (db : GuardDb) (resourceId userId : String) :
    List ResourceAction → Option ResourceAction
  | [] => none
  | .OWN :: rest =>
      if checkOwnership db resourceId userId then some .OWN
      else grantingAction db resourceId userId rest
  | .ENROLLED :: rest =>
      if checkEnrollment db resourceId userId then some .ENROLLED
      else grantingAction db resourceId userId rest
  | .PUBLIC :: _ => some .PUBLIC
  | .ADMIN :: rest => grantingAction db resourceId userId rest

/-- Modelled from the words of the specification for comparison: the
remaining policies are evaluated in the fixed order Own, Enrolled, Public,
and the first that resolves true grants. -/
def specOrderedGrant (db : GuardDb) (resourceId userId : String)
    (acts : List ResourceAction) : Option ResourceAction :=
  if acts.contains ResourceAction.OWN && checkOwnership db resourceId userId then
    some .OWN
  else if acts.contains ResourceAction.ENROLLED && checkEnrollment db resourceId userId then
    some .ENROLLED
  else if acts.contains ResourceAction.PUBLIC then
    some .PUBLIC
  else
    none

/-- Whether one listed policy is satisfied for the caller on the resource:
the disjunct each loop iteration tests (ADMIN is skipped by the loop). -/
def actionSatisfied (db : GuardDb) (resourceId userId : String) :
    ResourceAction → Bool
  | .OWN => checkOwnership db resourceId userId
  | .ENROLLED => checkEnrollment db resourceId userId
  | .PUBLIC => true
  | .ADMIN => false

/-- The policy list declared by the EnrolledOrOwnResource decorator:
ENROLLED, OWN, ADMIN, in that order. -/
def EnrolledOrOwnResource : List ResourceAction := [.ENROLLED, .OWN, .ADMIN]

/-- The policy list declared by the OwnResource decorator: OWN, ADMIN. -/
def OwnResource : List ResourceAction := [.OWN, .ADMIN]

/-- The policy list declared by the PublicResource decorator: PUBLIC,
ADMIN. -/
def PublicResource : List ResourceAction := [.PUBLIC, .ADMIN]

/-- The policy list declared by the AdminResource decorator: ADMIN. -/
def AdminResource : List ResourceAction := [.ADMIN]

/-- The state the auth service acts on: the users table and the cache. -/
structure AuthState where
  db : List User
  cache : Cache
deriving DecidableEq, Repr

/-- The register request body: email, password, fullName, optional role
and optional phone. The transport layer validates role against the
UserRole enum but attaches no authentication or authorization guard to
the endpoint. -/
structure RegisterDto where
  email : String
  password : String
  fullName : String
  role : Option UserRole
  phone : Option String
deriving DecidableEq, Repr

/-- The success acknowledgement shape returned by several auth methods. -/
structure AuthSuccessDto where
  message : String
  success : Bool
deriving DecidableEq, Repr

/-- The public view of a user returned from login and refresh. -/
structure PublicUser where
  id : String
  email : String
  fullName : String
  role : UserRole
deriving DecidableEq, Repr

/-- The login and refresh response: both tokens plus metadata and the
public view of the user. -/
structure LoginResponseDto where
  accessToken : Jwt
  refreshToken : Jwt
  tokenType : String
  expiresIn : Nat
  user : PublicUser
deriving DecidableEq, Repr

/-- Access token lifetime in seconds (1h in the source). -/
def jwtAccessLifetime : Nat := 3600

/-- Refresh token lifetime in seconds (7d in the source). -/
def jwtRefreshLifetime : Nat := 7 * 24 * 60 * 60

/-- Reset token lifetime in seconds (1h in the source). -/
def resetTokenLifetime : Nat := 3600

/-- The select ... where email = ... limit 1 query used by register, login
and forgotPassword. -/
def findByEmail (db : List User) (email : String) : Option User :=
  db.find? (fun u => u.email == email)

/-- AuthService.validateUserById: the user row with the given id and
isActive equal to the string true, if any. -/
def validateUserById (db : List User) (userId : String) : Option User :=
  db.find? (fun u => u.id == userId && u.isActive == "true")

/-- The fullName the service derives from a user row: first and last name
joined by a space and trimmed. -/
def fullNameOf (u : User) : String := (u.firstName ++ " " ++ u.lastName).trim

/-- AuthService.register. A duplicate email is a Conflict; otherwise the
fullName is split on spaces into first and last name, the password is
hashed, and a new row is inserted with role defaulting to student when the
dto carries none (role or-else STUDENT in the source: every enum value is
a truthy string, so the default applies exactly when the field is absent),
isVerified false and isActive true. The id generated by the database for
the new row is passed in as newId. The method returns only an
acknowledgement, never a token, and reads no caller identity. -/
def register (st : AuthState) (dto : RegisterDto) (newId : String) :
    Except AuthError AuthSuccessDto × AuthState :=
  match findByEmail st.db dto.email with
  | some _ => (.error ⟨.Conflict, "User with this email already exists"⟩, st)
  | none =>
    let nameParts := dto.fullName.trim.splitOn " "
    let firstName := nameParts.headD ""
    let lastName := String.intercalate " " (nameParts.drop 1)
    let newUser : User :=
      { id := newId
        email := dto.email
        password := bcryptHash dto.password
        firstName := firstName
        lastName := lastName
        role := dto.role.getD UserRole.student
        phone := dto.phone
        isVerified := "false"
        isActive := "true" }
    (.ok ⟨"User registered successfully", true⟩,
     { st with db := st.db ++ [newUser] })

/-- AuthService.login at time now. Unknown email: Unauthorized with the
invalid-credentials message; inactive account: Unauthorized with a
distinct deactivation message; wrong password: Unauthorized with the
invalid-credentials message. On success an access and a refresh token are
minted from the same payload and the refresh token is stored in the cache
under the refresh key of the user, overwriting any prior value. -/
def login (st : AuthState) (now : Nat) (email password : String) :
    Except AuthError LoginResponseDto × AuthState :=
  match findByEmail st.db email with
  | none => (.error ⟨.Unauthorized, "Invalid email or password"⟩, st)
  | some foundUser =>
    if foundUser.isActive != "true" then
      (.error ⟨.Unauthorized, "Account has been deactivated"⟩, st)
    else if !(bcryptCompare password foundUser.password) then
      (.error ⟨.Unauthorized, "Invalid email or password"⟩, st)
    else
      let fullName := fullNameOf foundUser
      let payload : JwtPayload :=
        { sub := foundUser.id
          email := foundUser.email
          role := some foundUser.role
          fullName := some fullName
          typ := none }
      let accessToken := signToken now payload jwtAccessLifetime
      let refreshTok := signToken now payload jwtRefreshLifetime
      (.ok { accessToken := accessToken
             refreshToken := refreshTok
             tokenType := "Bearer"
             expiresIn := 3600
             user := ⟨foundUser.id, foundUser.email, fullName, foundUser.role⟩ },
       { st with cache :=
           cacheSet st.cache (.refreshTok foundUser.id) (.tok refreshTok) })

/-- AuthService.refreshToken at time now. The body is wrapped in a
try-catch that converts every failure into Unauthorized with the
invalid-refresh-token message: a token that fails verification, a stored
value that is absent or not equal to the presented token, or a subject
that no longer resolves to an active user. On success a fresh pair is
minted from the re-read user and the stored refresh token is overwritten. -/
def refreshToken (st : AuthState) (now : Nat) (presented : Jwt) :
    Except AuthError LoginResponseDto × AuthState :=
  match verifyToken now presented with
  | none => (.error ⟨.Unauthorized, "Invalid refresh token"⟩, st)
  | some tok =>
    if cacheGet st.cache (.refreshTok tok.payload.sub) ≠ some (.tok presented) then
      (.error ⟨.Unauthorized, "Invalid refresh token"⟩, st)
    else
      match validateUserById st.db tok.payload.sub with
      | none => (.error ⟨.Unauthorized, "Invalid refresh token"⟩, st)
      | some user =>
        let newPayload : JwtPayload :=
          { sub := user.id
            email := user.email
            role := some user.role
            fullName := some (fullNameOf user)
            typ := none }
        let accessToken := signToken now newPayload jwtAccessLifetime
        let newRefresh := signToken now newPayload jwtRefreshLifetime
        (.ok { accessToken := accessToken
               refreshToken := newRefresh
               tokenType := "Bearer"
               expiresIn := 3600
               user := ⟨user.id, user.email, fullNameOf user, user.role⟩ },
         { st with cache :=
             cacheSet st.cache (.refreshTok user.id) (.tok newRefresh) })

/-- AuthService.logout at time now (seconds): delete the stored refresh
token and write the blacklist marker with the current timestamp. -/
def logout (st : AuthState) (now : Nat) (userId : String) :
    Except AuthError AuthSuccessDto × AuthState :=
  let cache1 := cacheDel st.cache (.refreshTok userId)
  let cache2 := cacheSet cache1 (.blacklist userId) (.ts now)
  (.ok ⟨"Logged out successfully", true⟩, { st with cache := cache2 })

/-- AuthService.changePassword. An id that does not resolve to an active
user is NotFound; a current password that does not verify is BadRequest,
thrown before any write. On success the stored hash is replaced and the
stored refresh token is deleted. -/
def changePassword (st : AuthState) (userId currentPassword newPassword : String) :
    Except AuthError AuthSuccessDto × AuthState :=
  match validateUserById st.db userId with
  | none => (.error ⟨.NotFound, "User not found"⟩, st)
  | some user =>
    if !(bcryptCompare currentPassword user.password) then
      (.error ⟨.BadRequest, "Current password is incorrect"⟩, st)
    else
      let db1 := st.db.map (fun u =>
        if u.id == userId then { u with password := bcryptHash newPassword } else u)
      (.ok ⟨"Password changed successfully", true⟩,
       { db := db1, cache := cacheDel st.cache (.refreshTok userId) })

/-- AuthService.forgotPassword at time now. When the email resolves to no
user the method returns the anti-enumeration acknowledgement unchanged;
when it does, a reset token is minted and stored under the reset key, and
the very same acknowledgement is returned. -/
def forgotPassword (st : AuthState) (now : Nat) (email : String) :
    Except AuthError AuthSuccessDto × AuthState :=
  match findByEmail st.db email with
  | none =>
    (.ok ⟨"If the email exists, a password reset link has been sent", true⟩, st)
  | some foundUser =>
    let resetPayload : JwtPayload :=
      { sub := foundUser.id
        email := foundUser.email
        role := none
        fullName := none
        typ := some "reset" }
    let resetTok := signToken now resetPayload resetTokenLifetime
    (.ok ⟨"If the email exists, a password reset link has been sent", true⟩,
     { st with cache :=
         cacheSet st.cache (.resetTok foundUser.id) (.tok resetTok) })

/-- AuthService.resetPassword at time now. The body is wrapped in a
try-catch that converts every failure into Unauthorized with the
invalid-or-expired message: a token failing verification, a missing reset
type tag, or a stored copy absent or different from the presented token.
On success the hash is updated, the stored reset token is deleted
(single-use enforcement) and the stored refresh token is deleted. -/
def resetPassword (st : AuthState) (now : Nat) (resetTok : Jwt)
    (newPassword : String) : Except AuthError AuthSuccessDto × AuthState :=
  match verifyToken now resetTok with
  | none => (.error ⟨.Unauthorized, "Invalid or expired reset token"⟩, st)
  | some tok =>
    if tok.payload.typ != some "reset" then
      (.error ⟨.Unauthorized, "Invalid or expired reset token"⟩, st)
    else if cacheGet st.cache (.resetTok tok.payload.sub) ≠ some (.tok resetTok) then
      (.error ⟨.Unauthorized, "Invalid or expired reset token"⟩, st)
    else
      let db1 := st.db.map (fun u =>
        if u.id == tok.payload.sub then { u with password := bcryptHash newPassword } else u)
      let cache1 := cacheDel st.cache (.resetTok tok.payload.sub)
      let cache2 := cacheDel cache1 (.refreshTok tok.payload.sub)
      (.ok ⟨"Password reset successfully", true⟩, { db := db1, cache := cache2 })

/-- AuthService.isTokenBlacklisted: true when the blacklist slot of the
user holds a timestamp at least the issued-at of the token. A non-numeric
value in the slot parses as NaN in the source and every comparison with
NaN is false. -/
def isTokenBlacklisted (cache : Cache) (userId : String) (tokenIssuedAt : Nat) : Bool :=
  match cacheGet cache (.blacklist userId) with
  | some (.ts t) => decide (t ≥ tokenIssuedAt)
  | some (.tok _) => false
  | none => false

/-- The user view the JWT strategy attaches to the request. -/
structure ValidatedUser where
  id : String
  email : String
  fullName : String
  role : UserRole
  isVerified : String
deriving DecidableEq, Repr

/-- JwtStrategy.validate on a signature-checked token: re-read the user
(fail closed when absent or inactive), then reject when the blacklist
marker covers the issued-at of the token. -/
def jwtValidate (st : AuthState) (tok : Jwt) : Except AuthError ValidatedUser :=
  match validateUserById st.db tok.payload.sub with
  | none => .error ⟨.Unauthorized, "User not found or token invalid"⟩
  | some user =>
    if isTokenBlacklisted st.cache tok.payload.sub tok.iat then
      .error ⟨.Unauthorized, "Token has been revoked"⟩
    else
      .ok ⟨user.id, user.email, fullNameOf user, user.role, user.isVerified⟩

/-! Helper lemmas shared by several theorems below. -/

theorem refreshToken_fails_of_stored_ne (st : AuthState) (now : Nat) (tok : Jwt)
    (h : cacheGet st.cache (.refreshTok tok.payload.sub) ≠ some (.tok tok)) :
    refreshToken st now tok =
      (.error ⟨.Unauthorized, "Invalid refresh token"⟩, st) := by
  cases hv : verifyToken now tok with
  | none => simp only [refreshToken, hv]
  | some t =>
      have ht : t = tok := by
        unfold verifyToken at hv
        split at hv
        · exact (Option.some.inj hv).symm
        · cases hv
      subst ht
      simp only [refreshToken, hv]
      rw [if_pos h]

theorem login_ok_state (st : AuthState) (now : Nat) (email pw : String)
    (res : LoginResponseDto) (st1 : AuthState)
    (h : login st now email pw = (.ok res, st1)) :
    st1.db = st.db ∧
    cacheGet st1.cache (.refreshTok res.user.id) = some (.tok res.refreshToken) := by
  unfold login at h
  cases hf : findByEmail st.db email with
  | none => rw [hf] at h; simp at h
  | some foundUser =>
      simp only [hf] at h
      by_cases hact : (foundUser.isActive != "true") = true
      · rw [if_pos hact] at h; simp at h
      · rw [if_neg hact] at h
        by_cases hpw : (!(bcryptCompare pw foundUser.password)) = true
        · rw [if_pos hpw] at h; simp at h
        · rw [if_neg hpw] at h
          have h1 := congrArg Prod.fst h
          have h2 := congrArg Prod.snd h
          simp only [] at h1 h2
          have hres := Except.ok.inj h1
          constructor
          · rw [← h2]
          · rw [← h2, ← hres]
            exact cacheGet_set_self _ _ _

theorem refreshToken_ok_state (st : AuthState) (now : Nat) (prev : Jwt)
    (res : LoginResponseDto) (st1 : AuthState)
    (h : refreshToken st now prev = (.ok res, st1)) :
    st1.db = st.db ∧
    cacheGet st1.cache (.refreshTok res.user.id) = some (.tok res.refreshToken) := by
  cases hv : verifyToken now prev with
  | none => simp only [refreshToken, hv] at h; simp at h
  | some t =>
      simp only [refreshToken, hv] at h
      by_cases hs : cacheGet st.cache (.refreshTok t.payload.sub) ≠ some (.tok prev)
      · rw [if_pos hs] at h; simp at h
      · rw [if_neg hs] at h
        cases hu : validateUserById st.db t.payload.sub with
        | none => rw [hu] at h; simp at h
        | some user =>
            simp only [hu] at h
            have h1 := congrArg Prod.fst h
            have h2 := congrArg Prod.snd h
            simp only [] at h1 h2
            have hres := Except.ok.inj h1
            constructor
            · rw [← h2]
            · rw [← h2, ← hres]
              exact cacheGet_set_self _ _ _

/-! Claim theorems. -/

/-- C9: forgotPassword returns the identical success acknowledgement (same
message text and success flag) for every email, state and time, so the
returned value does not depend on whether an identity with that email
exists. -/
theorem forgotPassword_uniform_ack :
    (∀ st now email, (forgotPassword st now email).1 =
      .ok ⟨"If the email exists, a password reset link has been sent", true⟩) ∧
    (∀ st1 st2 now1 now2 email1 email2,
      (forgotPassword st1 now1 email1).1 = (forgotPassword st2 now2 email2).1) := by
  have hconst : ∀ st now email, (forgotPassword st now email).1 =
      .ok ⟨"If the email exists, a password reset link has been sent", true⟩ := by
    intro st now email
    unfold forgotPassword
    cases findByEmail st.db email <;> rfl
  exact ⟨hconst, fun st1 st2 now1 now2 e1 e2 =>
    (hconst st1 now1 e1).trans (hconst st2 now2 e2).symm⟩

/-- C2 counterexample: the three login failure causes are not identical in
the response. With the same credentials, an absent account yields the
invalid-credentials message while a deactivated account yields a different
message, so the caller can tell the two apart. -/
theorem login_inactive_message_differs :
    (login ⟨[], []⟩ 0 "a@x.com" "pw").1 =
      .error ⟨.Unauthorized, "Invalid email or password"⟩ ∧
    (login ⟨[⟨"u1", "a@x.com", bcryptHash "pw", "Ana", "Bell",
        .student, none, "false", "false"⟩], []⟩ 0 "a@x.com" "pw").1 =
      .error ⟨.Unauthorized, "Account has been deactivated"⟩ ∧
    ("Invalid email or password" : String) ≠ "Account has been deactivated" :=
  ⟨rfl, rfl, by decide⟩

/-- C2 amended: every login failure is Unauthorized; an absent email and a
password mismatch return the identical invalid-credentials message, but a
deactivated account returns the distinct deactivation message, so
inactivity is distinguishable from the other two causes. -/
theorem login_failure_modes_amended (st : AuthState) (now : Nat)
    (email pw : String) :
    (findByEmail st.db email = none →
      (login st now email pw).1 =
        .error ⟨.Unauthorized, "Invalid email or password"⟩) ∧
    (∀ u, findByEmail st.db email = some u → u.isActive ≠ "true" →
      (login st now email pw).1 =
        .error ⟨.Unauthorized, "Account has been deactivated"⟩) ∧
    (∀ u, findByEmail st.db email = some u → u.isActive = "true" →
      bcryptCompare pw u.password = false →
      (login st now email pw).1 =
        .error ⟨.Unauthorized, "Invalid email or password"⟩) := by
  refine ⟨fun hf => ?_, fun u hf hact => ?_, fun u hf hact hpw => ?_⟩
  · unfold login
    rw [hf]
  · unfold login
    simp only [hf]
    rw [if_pos (by simp [hact])]
  · unfold login
    simp only [hf]
    rw [if_neg (by simp [hact]), if_pos (by simp [hpw])]

theorem login_failure_modes_amended_witness :
    (login ⟨[⟨"u1", "a@x.com", bcryptHash "pw", "Ana", "Bell",
        .student, none, "false", "false"⟩], []⟩ 3 "a@x.com" "pw").1 =
      .error ⟨.Unauthorized, "Account has been deactivated"⟩ :=
  (login_failure_modes_amended _ 3 "a@x.com" "pw").2.1
    ⟨"u1", "a@x.com", bcryptHash "pw", "Ana", "Bell",
      .student, none, "false", "false"⟩ rfl (by decide)

/-- C6: a changePassword call whose current password does not verify
against the stored hash fails with BadRequest and leaves the whole state
unchanged: no write to the users table and no deletion of the stored
refresh token. -/
theorem changePassword_wrong_current_no_mutation (st : AuthState)
    (userId cur newPw : String) (u : User)
    (hu : validateUserById st.db userId = some u)
    (hpw : bcryptCompare cur u.password = false) :
    changePassword st userId cur newPw =
      (.error ⟨.BadRequest, "Current password is incorrect"⟩, st) := by
  unfold changePassword
  simp only [hu]
  rw [if_pos (by simp [hpw])]

theorem changePassword_wrong_current_no_mutation_witness :
    changePassword
        ⟨[⟨"u1", "a@x.com", bcryptHash "right", "Ana", "Bell",
            .student, none, "false", "true"⟩],
         [(CacheKey.refreshTok "u1", CacheVal.ts 7)]⟩
        "u1" "wrong" "next" =
      (.error ⟨.BadRequest, "Current password is incorrect"⟩,
       ⟨[⟨"u1", "a@x.com", bcryptHash "right", "Ana", "Bell",
           .student, none, "false", "true"⟩],
        [(CacheKey.refreshTok "u1", CacheVal.ts 7)]⟩) :=
  changePassword_wrong_current_no_mutation _ "u1" "wrong" "next"
    ⟨"u1", "a@x.com", bcryptHash "right", "Ana", "Bell",
      .student, none, "false", "true"⟩ rfl (by decide)

/-- C3: a refresh call presenting a superseded refresh token fails with
Unauthorized and issues no new token pair, leaving the state unchanged.
Part one states this for any presented token whose stored slot is absent
or not byte-equal to it; parts two and three specialise it to a token
superseded by a later login and by a later refresh for the same identity. -/
theorem refreshToken_superseded_fails :
    (∀ st now tok,
      cacheGet st.cache (.refreshTok tok.payload.sub) ≠ some (.tok tok) →
      refreshToken st now tok =
        (.error ⟨.Unauthorized, "Invalid refresh token"⟩, st)) ∧
    (∀ st now1 now2 email pw res st1 tok,
      login st now1 email pw = (.ok res, st1) →
      tok.payload.sub = res.user.id → tok ≠ res.refreshToken →
      refreshToken st1 now2 tok =
        (.error ⟨.Unauthorized, "Invalid refresh token"⟩, st1)) ∧
    (∀ st now1 now2 prev res st1 tok,
      refreshToken st now1 prev = (.ok res, st1) →
      tok.payload.sub = res.user.id → tok ≠ res.refreshToken →
      refreshToken st1 now2 tok =
        (.error ⟨.Unauthorized, "Invalid refresh token"⟩, st1)) := by
  refine ⟨fun st now tok h => refreshToken_fails_of_stored_ne st now tok h,
          fun st now1 now2 email pw res st1 tok hlog hsub hne => ?_,
          fun st now1 now2 prev res st1 tok href hsub hne => ?_⟩
  · have hstate := login_ok_state st now1 email pw res st1 hlog
    apply refreshToken_fails_of_stored_ne
    rw [hsub, hstate.2]
    intro hcontr
    exact hne (CacheVal.tok.inj (Option.some.inj hcontr)).symm
  · have hstate := refreshToken_ok_state st now1 prev res st1 href
    apply refreshToken_fails_of_stored_ne
    rw [hsub, hstate.2]
    intro hcontr
    exact hne (CacheVal.tok.inj (Option.some.inj hcontr)).symm

theorem refreshToken_superseded_fails_witness :
    refreshToken
        ⟨[], [(CacheKey.refreshTok "u1",
               CacheVal.tok (signToken 5 ⟨"u1", "a@x.com", some .student,
                 some "Ana Bell", none⟩ jwtRefreshLifetime))]⟩
        9 (signToken 1 ⟨"u1", "a@x.com", some .student,
             some "Ana Bell", none⟩ jwtRefreshLifetime) =
      (.error ⟨.Unauthorized, "Invalid refresh token"⟩,
       ⟨[], [(CacheKey.refreshTok "u1",
              CacheVal.tok (signToken 5 ⟨"u1", "a@x.com", some .student,
                some "Ana Bell", none⟩ jwtRefreshLifetime))]⟩) :=
  refreshToken_superseded_fails.1 _ 9 _ (by decide)

/-- C5: resetPassword succeeds at most once per reset token. After one
successful call, a second call presenting the same token fails with
Unauthorized at any later time, in particular while the signature is still
valid and the token unexpired, because the stored copy was deleted on
first use; the second call changes nothing. -/
theorem resetPassword_single_use (st : AuthState) (now : Nat) (tok : Jwt)
    (newPw : String) (res : AuthSuccessDto) (st1 : AuthState)
    (h : resetPassword st now tok newPw = (.ok res, st1)) :
    ∀ now2 pw2, resetPassword st1 now2 tok pw2 =
      (.error ⟨.Unauthorized, "Invalid or expired reset token"⟩, st1) := by
  by_cases hc : (tok.sigOk && decide (now < tok.exp)) = true
  case neg =>
      have hv : verifyToken now tok = none := by unfold verifyToken; rw [if_neg hc]
      rw [resetPassword, hv] at h; simp at h
  case pos =>
      have hv : verifyToken now tok = some tok := by
        unfold verifyToken; rw [if_pos hc]
      simp only [resetPassword, hv] at h
      by_cases htyp : (tok.payload.typ != some "reset") = true
      · rw [if_pos htyp] at h; simp at h
      · rw [if_neg htyp] at h
        by_cases hs : cacheGet st.cache (.resetTok tok.payload.sub) ≠ some (.tok tok)
        · rw [if_pos hs] at h; simp at h
        · rw [if_neg hs] at h
          have h2 := congrArg Prod.snd h
          simp only [] at h2
          have hkey : cacheGet st1.cache (.resetTok tok.payload.sub) = none := by
            rw [← h2]
            show cacheGet
              (cacheDel (cacheDel st.cache (.resetTok tok.payload.sub))
                (.refreshTok tok.payload.sub)) (.resetTok tok.payload.sub) = none
            rw [cacheGet_del_ne _ _ _ (by simp)]
            exact cacheGet_del_self _ _
          intro now2 pw2
          by_cases hc2 : (tok.sigOk && decide (now2 < tok.exp)) = true
          case neg =>
              have hv2 : verifyToken now2 tok = none := by
                unfold verifyToken; rw [if_neg hc2]
              rw [resetPassword, hv2]
          case pos =>
              have hv2 : verifyToken now2 tok = some tok := by
                unfold verifyToken; rw [if_pos hc2]
              simp only [resetPassword, hv2]
              rw [if_neg htyp, if_pos (by rw [hkey]; simp)]

theorem resetPassword_single_use_witness :
    resetPassword
        ⟨[⟨"u1", "a@x.com", bcryptHash "npw", "Ana", "Bell",
            .student, none, "false", "true"⟩], []⟩
        6
        (signToken 0 ⟨"u1", "a@x.com", none, none, some "reset"⟩ resetTokenLifetime)
        "again" =
      (.error ⟨.Unauthorized, "Invalid or expired reset token"⟩,
       ⟨[⟨"u1", "a@x.com", bcryptHash "npw", "Ana", "Bell",
           .student, none, "false", "true"⟩], []⟩) :=
  resetPassword_single_use
    ⟨[⟨"u1", "a@x.com", bcryptHash "old", "Ana", "Bell",
        .student, none, "false", "true"⟩],
     [(CacheKey.resetTok "u1",
       CacheVal.tok (signToken 0 ⟨"u1", "a@x.com", none, none, some "reset"⟩
         resetTokenLifetime))]⟩
    5
    (signToken 0 ⟨"u1", "a@x.com", none, none, some "reset"⟩ resetTokenLifetime)
    "npw" ⟨"Password reset successfully", true⟩
    ⟨[⟨"u1", "a@x.com", bcryptHash "npw", "Ana", "Bell",
        .student, none, "false", "true"⟩], []⟩
    rfl 6 "again"

theorem jwtValidate_revoked_of (st2 : AuthState) (tok : Jwt) (w : User)
    (hw : validateUserById st2.db tok.payload.sub = some w)
    (hbl : isTokenBlacklisted st2.cache tok.payload.sub tok.iat = true) :
    jwtValidate st2 tok = .error ⟨.Unauthorized, "Token has been revoked"⟩ := by
  unfold jwtValidate
  simp only [hw]
  simp [hbl]

theorem jwtValidate_ok_of (st2 : AuthState) (tok : Jwt) (w : User)
    (hw : validateUserById st2.db tok.payload.sub = some w)
    (hbl : isTokenBlacklisted st2.cache tok.payload.sub tok.iat = false) :
    jwtValidate st2 tok = .ok ⟨w.id, w.email, fullNameOf w, w.role, w.isVerified⟩ := by
  unfold jwtValidate
  simp only [hw]
  simp [hbl]

/-- C4: after logout(uid), the blacklist marker carries the logout
timestamp and isTokenBlacklisted compares it against the issued-at of the
token with greater-or-equal; hence a token issued at or before the logout
is rejected as revoked by the validate path, while after a subsequent
fresh login at a strictly later time the newly issued access token carries
that later issued-at and passes validate. -/
theorem logout_revokes_old_accepts_new (st : AuthState) (uid : String)
    (tLogout : Nat) :
    (∀ iat, isTokenBlacklisted (logout st tLogout uid).2.cache uid iat =
      decide (tLogout ≥ iat)) ∧
    (∀ tok u, tok.payload.sub = uid → tok.iat ≤ tLogout →
      validateUserById st.db uid = some u →
      jwtValidate (logout st tLogout uid).2 tok =
        .error ⟨.Unauthorized, "Token has been revoked"⟩) ∧
    (∀ tLogin email pw u, findByEmail st.db email = some u →
      u.isActive = "true" → bcryptCompare pw u.password = true →
      u.id = uid → tLogout < tLogin →
      ∃ res st2, login (logout st tLogout uid).2 tLogin email pw = (.ok res, st2) ∧
        res.accessToken.iat = tLogin ∧ res.accessToken.payload.sub = uid ∧
        ∃ v, jwtValidate st2 res.accessToken = .ok v) := by
  have hbl : ∀ iat, isTokenBlacklisted (logout st tLogout uid).2.cache uid iat =
      decide (tLogout ≥ iat) := by
    intro iat
    show isTokenBlacklisted
      (cacheSet (cacheDel st.cache (.refreshTok uid)) (.blacklist uid) (.ts tLogout))
      uid iat = decide (tLogout ≥ iat)
    unfold isTokenBlacklisted
    rw [cacheGet_set_self]
  refine ⟨hbl, fun tok u hsub hiat hval => ?_, fun tLogin email pw u hf hact hpw hid ht => ?_⟩
  · have hval1 : validateUserById (logout st tLogout uid).2.db tok.payload.sub = some u := by
      rw [hsub]; exact hval
    exact jwtValidate_revoked_of _ tok u hval1
      (by rw [hsub, hbl tok.iat]; simpa using hiat)
  · have hf1 : findByEmail (logout st tLogout uid).2.db email = some u := hf
    have hlogin : login (logout st tLogout uid).2 tLogin email pw =
        (.ok { accessToken :=
                 signToken tLogin
                   ⟨u.id, u.email, some u.role, some (fullNameOf u), none⟩
                   jwtAccessLifetime
               refreshToken :=
                 signToken tLogin
                   ⟨u.id, u.email, some u.role, some (fullNameOf u), none⟩
                   jwtRefreshLifetime
               tokenType := "Bearer"
               expiresIn := 3600
               user := ⟨u.id, u.email, fullNameOf u, u.role⟩ },
         { db := (logout st tLogout uid).2.db
           cache := cacheSet (logout st tLogout uid).2.cache (.refreshTok u.id)
             (.tok (signToken tLogin
               ⟨u.id, u.email, some u.role, some (fullNameOf u), none⟩
               jwtRefreshLifetime)) }) := by
      unfold login
      simp only [hf1]
      rw [if_neg (by simp [hact]), if_neg (by simp [hpw])]
    refine ⟨_, _, hlogin, rfl, hid, ?_⟩
    have hw : ∃ w, validateUserById st.db u.id = some w := by
      cases hvq : validateUserById st.db u.id with
      | some w => exact ⟨w, rfl⟩
      | none =>
          exfalso
          have hmem : u ∈ st.db := List.mem_of_find?_eq_some hf
          unfold validateUserById at hvq
          exact absurd (by simp [hact] : (u.id == u.id && u.isActive == "true") = true)
            (by simpa using List.find?_eq_none.mp hvq u hmem)
    obtain ⟨w, hw⟩ := hw
    have hnotbl : isTokenBlacklisted
        (cacheSet (logout st tLogout uid).2.cache (.refreshTok u.id)
          (.tok (signToken tLogin
            ⟨u.id, u.email, some u.role, some (fullNameOf u), none⟩
            jwtRefreshLifetime)))
        (signToken tLogin ⟨u.id, u.email, some u.role, some (fullNameOf u), none⟩
          jwtAccessLifetime).payload.sub
        (signToken tLogin ⟨u.id, u.email, some u.role, some (fullNameOf u), none⟩
          jwtAccessLifetime).iat = false := by
      show isTokenBlacklisted
        (cacheSet (logout st tLogout uid).2.cache (.refreshTok u.id)
          (.tok (signToken tLogin
            ⟨u.id, u.email, some u.role, some (fullNameOf u), none⟩
            jwtRefreshLifetime))) u.id tLogin = false
      unfold isTokenBlacklisted
      rw [cacheGet_set_ne _ _ _ _ (by simp), hid]
      show (match cacheGet
          (cacheSet (cacheDel st.cache (.refreshTok uid)) (.blacklist uid)
            (.ts tLogout)) (.blacklist uid) with
        | some (.ts t) => decide (t ≥ tLogin)
        | some (.tok _) => false
        | none => false) = false
      rw [cacheGet_set_self]
      simpa using Nat.not_le.mpr ht
    exact ⟨⟨w.id, w.email, fullNameOf w, w.role, w.isVerified⟩,
      jwtValidate_ok_of _ _ w hw hnotbl⟩

theorem logout_revokes_old_accepts_new_witness :
    jwtValidate
        (logout ⟨[⟨"u1", "a@x.com", bcryptHash "pw", "Ana", "Bell",
            .student, none, "false", "true"⟩], []⟩ 10 "u1").2
        (signToken 4 ⟨"u1", "a@x.com", some .student, some "Ana Bell", none⟩
          jwtAccessLifetime) =
      .error ⟨.Unauthorized, "Token has been revoked"⟩ ∧
    ∃ res st2,
      login (logout ⟨[⟨"u1", "a@x.com", bcryptHash "pw", "Ana", "Bell",
          .student, none, "false", "true"⟩], []⟩ 10 "u1").2 11 "a@x.com" "pw" =
        (.ok res, st2) ∧
      res.accessToken.iat = 11 ∧ res.accessToken.payload.sub = "u1" ∧
      ∃ v, jwtValidate st2 res.accessToken = .ok v :=
  ⟨(logout_revokes_old_accepts_new _ "u1" 10).2.1
      (signToken 4 ⟨"u1", "a@x.com", some .student, some "Ana Bell", none⟩
        jwtAccessLifetime)
      ⟨"u1", "a@x.com", bcryptHash "pw", "Ana", "Bell",
        .student, none, "false", "true"⟩ rfl (by decide) (by decide),
   (logout_revokes_old_accepts_new _ "u1" 10).2.2 11 "a@x.com" "pw"
      ⟨"u1", "a@x.com", bcryptHash "pw", "Ana", "Bell",
        .student, none, "false", "true"⟩ (by decide) rfl (by decide) rfl (by decide)⟩

theorem policyLoop_of_public_mem (db : GuardDb) (rid uid : String)
    (acts : List ResourceAction) (h : ResourceAction.PUBLIC ∈ acts) :
    policyLoop db rid uid acts = true := by
  induction acts with
  | nil => cases h
  | cons a rest ih =>
      cases a with
      | PUBLIC => rfl
      | OWN =>
          have hm : ResourceAction.PUBLIC ∈ rest := by
            cases h with
            | tail _ hm => exact hm
          simp only [policyLoop]
          split
          · rfl
          · exact ih hm
      | ENROLLED =>
          have hm : ResourceAction.PUBLIC ∈ rest := by
            cases h with
            | tail _ hm => exact hm
          simp only [policyLoop]
          split
          · rfl
          · exact ih hm
      | ADMIN =>
          have hm : ResourceAction.PUBLIC ∈ rest := by
            cases h with
            | tail _ hm => exact hm
          simp only [policyLoop]
          exact ih hm

/-- C1 counterexample: a policy set containing Public does not make the
guard allow immediately. With resourceActions equal to the singleton
Public and no isPublic metadata, an unauthenticated request is rejected
with Forbidden, and an authenticated request naming a missing resource is
rejected with NotFound — the claim asserts both would be allowed. -/
theorem canActivate_public_policy_not_immediate :
    canActivate ⟨[], []⟩ false (some [ResourceAction.PUBLIC]) none
        ⟨some "c1", none, none, none⟩ =
      .error ⟨.Forbidden, "Authentication required"⟩ ∧
    canActivate ⟨[], []⟩ false (some [ResourceAction.PUBLIC])
        (some ⟨"u1", .student⟩) ⟨some "c1", none, none, none⟩ =
      .error ⟨.NotFound, "Resource not found"⟩ :=
  ⟨rfl, rfl⟩

/-- C1 amended: only the isPublic metadata written by the Public decorator
makes canActivate allow immediately, for any request, identity or state;
when Public instead appears in the resourceActions policy set, the guard
still requires an authenticated identity, an extractable resource id and
an existing resource, and only then does the Public policy guarantee
access. -/
theorem canActivate_public_policy_amended :
    (∀ db acts user req, canActivate db true acts user req = .ok true) ∧
    (∀ db acts u req rid, extractResourceId req = some rid →
      checkResourceExists db rid = true → ResourceAction.PUBLIC ∈ acts →
      canActivate db false (some acts) (some u) req = .ok true) := by
  constructor
  · intro db acts user req
    rfl
  · intro db acts u req rid hext hex hmem
    have hne : acts.isEmpty = false := by
      cases acts with
      | nil => cases hmem
      | cons a rest => rfl
    unfold canActivate
    simp only [Bool.false_eq_true, if_false, hne, hext]
    rw [if_neg (by simp [hex])]
    by_cases hadm : (u.role == UserRole.admin && acts.contains ResourceAction.ADMIN) = true
    · rw [if_pos hadm]
    · rw [if_neg hadm, if_pos (policyLoop_of_public_mem db rid u.id acts hmem)]

theorem canActivate_public_policy_amended_witness :
    canActivate ⟨[⟨"c1", "t1"⟩], []⟩ false (some PublicResource)
        (some ⟨"u9", .student⟩) ⟨some "c1", none, none, none⟩ = .ok true :=
  canActivate_public_policy_amended.2 ⟨[⟨"c1", "t1"⟩], []⟩ PublicResource
    ⟨"u9", .student⟩ ⟨some "c1", none, none, none⟩ "c1" rfl (by decide) (by decide)

/-- C8: with a declared, nonempty policy set and an authenticated
identity, a resource id that does not resolve to an existing resource
yields NotFound, for every identity and policy set — in particular for an
admin or a would-be owner — because the existence check runs before the
admin override and before the policy loop. -/
theorem canActivate_missing_resource_notFound (db : GuardDb)
    (acts : List ResourceAction) (u : AuthedUser) (req : GuardRequest)
    (rid : String) (hne : acts ≠ []) (hext : extractResourceId req = some rid)
    (hex : checkResourceExists db rid = false) :
    canActivate db false (some acts) (some u) req =
      .error ⟨.NotFound, "Resource not found"⟩ := by
  have hne' : acts.isEmpty = false := by
    cases acts with
    | nil => exact absurd rfl hne
    | cons a rest => rfl
  unfold canActivate
  simp only [Bool.false_eq_true, if_false, hext]
  rw [if_neg (by simp [hne'])]
  rw [if_pos (by simp [hex])]

theorem canActivate_missing_resource_notFound_witness :
    canActivate ⟨[], []⟩ false (some AdminResource) (some ⟨"a1", .admin⟩)
        ⟨some "cX", none, none, none⟩ =
      .error ⟨.NotFound, "Resource not found"⟩ :=
  canActivate_missing_resource_notFound ⟨[], []⟩ AdminResource ⟨"a1", .admin⟩
    ⟨some "cX", none, none, none⟩ "cX" (by decide) rfl rfl

/-- C7 counterexample: the policy loop does not evaluate the remaining
policies in the fixed order Own, Enrolled, Public; it follows the declared
list order. For the EnrolledOrOwnResource policy list (declared order
Enrolled, Own, Admin) and a caller who both owns and is enrolled in the
course, the loop grants at Enrolled, while the fixed order stated by the
claim would grant at Own. -/
theorem policyLoop_order_counterexample :
    grantingAction ⟨[⟨"c1", "u1"⟩], [⟨"u1", "c1", "active"⟩]⟩ "c1" "u1"
        EnrolledOrOwnResource = some .ENROLLED ∧
    specOrderedGrant ⟨[⟨"c1", "u1"⟩], [⟨"u1", "c1", "active"⟩]⟩ "c1" "u1"
        EnrolledOrOwnResource = some .OWN ∧
    some ResourceAction.ENROLLED ≠ some ResourceAction.OWN :=
  ⟨rfl, rfl, by decide⟩

theorem policyLoop_eq_any (db : GuardDb) (rid uid : String)
    (acts : List ResourceAction) :
    policyLoop db rid uid acts = acts.any (actionSatisfied db rid uid) := by
  induction acts with
  | nil => rfl
  | cons a rest ih =>
      cases a with
      | OWN =>
          cases h : checkOwnership db rid uid <;>
            simp [policyLoop, actionSatisfied, h, ih]
      | ENROLLED =>
          cases h : checkEnrollment db rid uid <;>
            simp [policyLoop, actionSatisfied, h, ih]
      | PUBLIC => simp [policyLoop, actionSatisfied]
      | ADMIN => simp [policyLoop, actionSatisfied, ih]

theorem grantingAction_isSome_eq_policyLoop (db : GuardDb) (rid uid : String)
    (acts : List ResourceAction) :
    (grantingAction db rid uid acts).isSome = policyLoop db rid uid acts := by
  induction acts with
  | nil => rfl
  | cons a rest ih =>
      cases a with
      | OWN =>
          cases h : checkOwnership db rid uid <;>
            simp [grantingAction, policyLoop, h, ih]
      | ENROLLED =>
          cases h : checkEnrollment db rid uid <;>
            simp [grantingAction, policyLoop, h, ih]
      | PUBLIC => simp [grantingAction, policyLoop]
      | ADMIN => simp [grantingAction, policyLoop, ih]

theorem specOrderedGrant_isSome_eq_any (db : GuardDb) (rid uid : String)
    (acts : List ResourceAction) :
    (specOrderedGrant db rid uid acts).isSome =
      acts.any (actionSatisfied db rid uid) := by
  unfold specOrderedGrant
  split_ifs with h1 h2 h3
  · rw [Bool.and_eq_true] at h1
    have hm : ResourceAction.OWN ∈ acts := by
      have := h1.1
      simp [List.contains] at this
      exact this
    simp only [Option.isSome_some]
    symm
    rw [List.any_eq_true]
    exact ⟨.OWN, hm, by simp [actionSatisfied, h1.2]⟩
  · rw [Bool.and_eq_true] at h2
    have hm : ResourceAction.ENROLLED ∈ acts := by
      have := h2.1
      simp [List.contains] at this
      exact this
    simp only [Option.isSome_some]
    symm
    rw [List.any_eq_true]
    exact ⟨.ENROLLED, hm, by simp [actionSatisfied, h2.2]⟩
  · have hm : ResourceAction.PUBLIC ∈ acts := by
      simp [List.contains] at h3
      exact h3
    simp only [Option.isSome_some]
    symm
    rw [List.any_eq_true]
    exact ⟨.PUBLIC, hm, by simp [actionSatisfied]⟩
  · simp only [Option.isSome_none]
    symm
    rw [List.any_eq_false]
    intro x hx
    cases x with
    | OWN =>
        intro hsat
        exact h1 (by
          rw [Bool.and_eq_true]
          exact ⟨by simp [List.contains]; exact hx,
                 by simpa [actionSatisfied] using hsat⟩)
    | ENROLLED =>
        intro hsat
        exact h2 (by
          rw [Bool.and_eq_true]
          exact ⟨by simp [List.contains]; exact hx,
                 by simpa [actionSatisfied] using hsat⟩)
    | PUBLIC =>
        intro hsat
        exact h3 (by simp [List.contains]; exact hx)
    | ADMIN => simp [actionSatisfied]

/-- C7 amended: the canActivate policy loop evaluates the listed policies
in the order the endpoint declares them (for EnrolledOrOwnResource that
order is Enrolled, Own, Admin) and the first that resolves true grants;
because granting is a disjunction over the listed policies, the allow/deny
decision coincides with the fixed Own, Enrolled, Public order stated by
the specification, even though the granting policy can differ. -/
theorem policyLoop_declared_order_amended (db : GuardDb) (rid uid : String)
    (acts : List ResourceAction) :
    policyLoop db rid uid acts = acts.any (actionSatisfied db rid uid) ∧
    (grantingAction db rid uid acts).isSome = policyLoop db rid uid acts ∧
    (grantingAction db rid uid acts).isSome =
      (specOrderedGrant db rid uid acts).isSome :=
  ⟨policyLoop_eq_any db rid uid acts,
   grantingAction_isSome_eq_policyLoop db rid uid acts,
   by rw [grantingAction_isSome_eq_policyLoop, policyLoop_eq_any,
          specOrderedGrant_isSome_eq_any]⟩

/-- C10: register persists whatever role the caller supplies verbatim and
takes no caller identity at all (its arguments are only the request body
and the generated row id, so no authorization check is possible); the role
defaults to student exactly when the role field is absent. Instantiating
the supplied role with admin shows an unauthenticated caller can create an
identity with the admin role. -/
theorem register_persists_role_verbatim (st : AuthState)
    (email pw fullName : String) (phone : Option String) (newId : String)
    (r : UserRole) (hfresh : findByEmail st.db email = none) :
    (∃ u, (register st ⟨email, pw, fullName, some r, phone⟩ newId).1 =
        .ok ⟨"User registered successfully", true⟩ ∧
      (register st ⟨email, pw, fullName, some r, phone⟩ newId).2.db =
        st.db ++ [u] ∧
      u.role = r) ∧
    (∃ u, (register st ⟨email, pw, fullName, none, phone⟩ newId).1 =
        .ok ⟨"User registered successfully", true⟩ ∧
      (register st ⟨email, pw, fullName, none, phone⟩ newId).2.db =
        st.db ++ [u] ∧
      u.role = UserRole.student) := by
  have h1 : register st ⟨email, pw, fullName, some r, phone⟩ newId =
      (.ok ⟨"User registered successfully", true⟩,
       { st with db := st.db ++
           [{ id := newId, email := email, password := bcryptHash pw,
              firstName := (fullName.trim.splitOn " ").headD "",
              lastName := String.intercalate " " ((fullName.trim.splitOn " ").drop 1),
              role := r, phone := phone,
              isVerified := "false", isActive := "true" }] }) := by
    unfold register
    simp only [hfresh]
    rfl
  have h2 : register st ⟨email, pw, fullName, none, phone⟩ newId =
      (.ok ⟨"User registered successfully", true⟩,
       { st with db := st.db ++
           [{ id := newId, email := email, password := bcryptHash pw,
              firstName := (fullName.trim.splitOn " ").headD "",
              lastName := String.intercalate " " ((fullName.trim.splitOn " ").drop 1),
              role := UserRole.student, phone := phone,
              isVerified := "false", isActive := "true" }] }) := by
    unfold register
    simp only [hfresh]
    rfl
  exact ⟨⟨_, by rw [h1], by rw [h1], rfl⟩, ⟨_, by rw [h2], by rw [h2], rfl⟩⟩

theorem register_persists_role_verbatim_witness :
    (∃ u, (register ⟨[], []⟩ ⟨"a@x.com", "pw", "Ana Bell", some .admin, none⟩
        "u1").1 = .ok ⟨"User registered successfully", true⟩ ∧
      (register ⟨[], []⟩ ⟨"a@x.com", "pw", "Ana Bell", some .admin, none⟩
        "u1").2.db = [] ++ [u] ∧
      u.role = UserRole.admin) ∧
    (∃ u, (register ⟨[], []⟩ ⟨"a@x.com", "pw", "Ana Bell", none, none⟩
        "u1").1 = .ok ⟨"User registered successfully", true⟩ ∧
      (register ⟨[], []⟩ ⟨"a@x.com", "pw", "Ana Bell", none, none⟩
        "u1").2.db = [] ++ [u] ∧
      u.role = UserRole.student) :=
  register_persists_role_verbatim ⟨[], []⟩ "a@x.com" "pw" "Ana Bell" none "u1"
    .admin rfl

end SikshaPath
